import Mathlib

/-!
Verification of the inventory-alert notification pipeline
(`functions/telegramAlerts.js`): inventory classifier, message composer,
settings resolver, delivery dispatcher and batch orchestrator, embedded
shallowly as pure Lean functions.  Dates are millisecond timestamps
(`Int`); the ambient clock is passed explicitly; the external messaging
gateway is a function parameter returning the result record the caller
inspects; a thrown gateway call is an `Except.error`.
-/

namespace Vyapari

/-- Milliseconds in one day, `1000 * 60 * 60 * 24` from the source. -/
def oneDayMs : Int := 1000 * 60 * 60 * 24

/-- `Math.ceil(a / b)` for integer `a` and positive integer `b`,
as used in `daysUntilExpiry`. -/
def ceilDiv (a b : Int) : Int := -((-a).fdiv b)

/-- The stored `expiryDate` field once fed to `new Date(...)`: either a
date that parses to a (midnight-normalized) timestamp, or an unparseable
value (an Invalid Date, whose comparisons are all false). -/
inductive ExpiryVal where
  | valid (ms : Int)
  | invalid
deriving DecidableEq, Repr

/-- One inventory document.  `name`/`quantity` model the JS fields with
`none` standing for an absent/falsy field (the source applies
`item.name || 'Unnamed Item'` and `item.quantity || 0`); `expiryDate`
is `none` when the field is absent/falsy. -/
structure InventoryItem where
  name : Option String
  quantity : Option Int
  expiryDate : Option ExpiryVal
deriving DecidableEq, Repr

/-- `item.name || 'Unnamed Item'`. -/
def itemName (i : InventoryItem) : String := i.name.getD "Unnamed Item"

/-- `item.quantity || 0`. -/
def itemQty (i : InventoryItem) : Int := i.quantity.getD 0

/-- Entry pushed onto `expired`. -/
structure ExpiredEntry where
  name : String
  daysExpired : Int
  expiryDate : Int
deriving DecidableEq, Repr

/-- Entry pushed onto `nearExpiry`. -/
structure NearExpiryEntry where
  name : String
  daysUntilExpiry : Int
  expiryDate : Int
deriving DecidableEq, Repr

/-- Entry pushed onto `lowStock`. -/
structure LowStockEntry where
  name : String
  quantity : Int
deriving DecidableEq, Repr

/-- The transient classification result. -/
structure ClassificationResult where
  expired : List ExpiredEntry
  nearExpiry : List NearExpiryEntry
  lowStock : List LowStockEntry
deriving DecidableEq, Repr

/-- `Math.ceil((expiryDate - today) / oneDayMs)` for a parsed expiry
timestamp `ms`. -/
def itemDays (today ms : Int) : Int := ceilDiv (ms - today) oneDayMs

/-- One iteration of the classifier loop: the expiry branch
(`daysUntilExpiry <= 0` → expired, else `<= expiryWarningDays` →
nearExpiry, an unparseable date classifies nowhere), then the
independent low-stock check. -/
def classifyItem (today expiryWarningDays lowStockThreshold : Int)
    (acc : ClassificationResult) (item : InventoryItem) : ClassificationResult :=
  let acc1 :=
    match item.expiryDate with
    | some (.valid ms) =>
        let d := itemDays today ms
        if d ≤ 0 then
          { acc with expired := acc.expired ++ [⟨itemName item, |d|, ms⟩] }
        else if d ≤ expiryWarningDays then
          { acc with nearExpiry := acc.nearExpiry ++ [⟨itemName item, d, ms⟩] }
        else acc
    | some .invalid => acc
    | none => acc
  let q := itemQty item
  if q ≤ lowStockThreshold then
    { acc1 with lowStock := acc1.lowStock ++ [⟨itemName item, q⟩] }
  else acc1

/-- `analyzeInventory(inventory, expiryWarningDays, lowStockThreshold)`:
the per-item loop followed by the three stable sorts
(`b.daysExpired - a.daysExpired`, `a.daysUntilExpiry - b.daysUntilExpiry`,
`a.quantity - b.quantity`).  `today` is the midnight-normalized clock the
source computes at entry. -/
def analyzeInventory (today : Int) (inventory : List InventoryItem)
    (expiryWarningDays lowStockThreshold : Int) : ClassificationResult :=
  let r := inventory.foldl (classifyItem today expiryWarningDays lowStockThreshold)
    ⟨[], [], []⟩
  ⟨r.expired.mergeSort (fun a b => decide (b.daysExpired ≤ a.daysExpired)),
   r.nearExpiry.mergeSort (fun a b => decide (a.daysUntilExpiry ≤ b.daysUntilExpiry)),
   r.lowStock.mergeSort (fun a b => decide (a.quantity ≤ b.quantity))⟩

/-- Whether the expiry branch classifies `i` as expired. -/
def isExpiredItem (today : Int) (i : InventoryItem) : Bool :=
  match i.expiryDate with
  | some (.valid ms) => decide (itemDays today ms ≤ 0)
  | some .invalid => false
  | none => false

/-- Whether the expiry branch classifies `i` as near expiry. -/
def isNearExpiryItem (today expiryWarningDays : Int) (i : InventoryItem) : Bool :=
  match i.expiryDate with
  | some (.valid ms) =>
      decide (0 < itemDays today ms) && decide (itemDays today ms ≤ expiryWarningDays)
  | some .invalid => false
  | none => false

/-- The `expired` entry built for an item (meaningful when
`isExpiredItem` holds). -/
def expiredEntryOf (today : Int) (i : InventoryItem) : ExpiredEntry :=
  match i.expiryDate with
  | some (.valid ms) => ⟨itemName i, |itemDays today ms|, ms⟩
  | some .invalid => ⟨itemName i, 0, 0⟩
  | none => ⟨itemName i, 0, 0⟩

/-- The `nearExpiry` entry built for an item (meaningful when
`isNearExpiryItem` holds). -/
def nearExpiryEntryOf (today : Int) (i : InventoryItem) : NearExpiryEntry :=
  match i.expiryDate with
  | some (.valid ms) => ⟨itemName i, itemDays today ms, ms⟩
  | some .invalid => ⟨itemName i, 0, 0⟩
  | none => ⟨itemName i, 0, 0⟩

/-- The `lowStock` entry built for an item with `quantity ≤ threshold`. -/
def lowStockEntryOf (i : InventoryItem) : LowStockEntry :=
  ⟨itemName i, itemQty i⟩

/-! Decorative marker strings, byte-for-byte as they appear in the
source file's template literals. -/

def headerMark : String := "ðŸš¨"

def expiredHdrMark : String := "âŒ"

def redMark : String := "ðŸ”´"

def calendarMark : String := "ðŸ“…"

def orangeMark : String := "ðŸŸ "

def yellowMark : String := "ðŸŸ¡"

def packageMark : String := "ðŸ“¦"

def warnMark : String := "âš ï¸"

def pointMark : String := "ðŸ‘‰"

/-- One rendered line of the expired section. -/
def expiredLineText (item : ExpiredEntry) : String :=
  let expiredText :=
    if item.daysExpired = 0 then "Expired today"
    else "Expired " ++ toString item.daysExpired ++ " day" ++
      (if 1 < item.daysExpired then "s" else "") ++ " ago"
  redMark ++ " " ++ item.name ++ " - " ++ expiredText

/-- One rendered line of the near-expiry section; `fmtShortDate` models
`toLocaleDateString('en-IN', {day, month, timeZone})` on the entry's
stored expiry date. -/
def nearExpiryLineText (fmtShortDate : Int → String) (item : NearExpiryEntry) : String :=
  let emoji :=
    if item.daysUntilExpiry = 1 then redMark
    else if item.daysUntilExpiry ≤ 3 then orangeMark
    else yellowMark
  let dateStr := fmtShortDate item.expiryDate
  emoji ++ " " ++ item.name ++ " - Expires in " ++ toString item.daysUntilExpiry ++
    " day" ++ (if 1 < item.daysUntilExpiry then "s" else "") ++ " (" ++ dateStr ++ ")"

/-- One rendered line of the low-stock section. -/
def lowStockLineText (item : LowStockEntry) : String :=
  let emoji := if item.quantity = 0 then redMark else warnMark
  let quantityText :=
    if item.quantity = 0 then "Out of stock"
    else "Only " ++ toString item.quantity ++ " left"
  emoji ++ " " ++ item.name ++ " - " ++ quantityText

/-- The expired-items section: header with count, at most 10 entry
lines (`slice(0, 10)`), a truncation line when more than 10 exist, and
a blank line; appended to the accumulated message. -/
def expiredSection (expired : List ExpiredEntry) (message : String) : String :=
  if 0 < expired.length then
    let m1 := message ++ expiredHdrMark ++ " *Expired Items (" ++
      toString expired.length ++ "):*\n"
    let itemsToShow := expired.take 10
    let m2 := itemsToShow.foldl (fun m item => m ++ expiredLineText item ++ "\n") m1
    let m3 :=
      if 10 < expired.length then
        m2 ++ "_...and " ++ toString (expired.length - 10) ++ " more items_\n"
      else m2
    m3 ++ "\n"
  else message

/-- The expiring-soon section, same shape as `expiredSection`. -/
def nearExpirySection (fmtShortDate : Int → String)
    (nearExpiry : List NearExpiryEntry) (message : String) : String :=
  if 0 < nearExpiry.length then
    let m1 := message ++ calendarMark ++ " *Expiring Soon (" ++
      toString nearExpiry.length ++ "):*\n"
    let itemsToShow := nearExpiry.take 10
    let m2 := itemsToShow.foldl
      (fun m item => m ++ nearExpiryLineText fmtShortDate item ++ "\n") m1
    let m3 :=
      if 10 < nearExpiry.length then
        m2 ++ "_...and " ++ toString (nearExpiry.length - 10) ++ " more items_\n"
      else m2
    m3 ++ "\n"
  else message

/-- The low-stock section, same shape as `expiredSection`. -/
def lowStockSection (lowStock : List LowStockEntry) (message : String) : String :=
  if 0 < lowStock.length then
    let m1 := message ++ packageMark ++ " *Low Stock (" ++
      toString lowStock.length ++ "):*\n"
    let itemsToShow := lowStock.take 10
    let m2 := itemsToShow.foldl (fun m item => m ++ lowStockLineText item ++ "\n") m1
    let m3 :=
      if 10 < lowStock.length then
        m2 ++ "_...and " ++ toString (lowStock.length - 10) ++ " more items_\n"
      else m2
    m3 ++ "\n"
  else message

/-- `formatAlertMessage(storeName, expired, nearExpiry, lowStock)`.
The source samples the clock (`new Date()`) at render time for the
header date; `renderTime` is that clock value and `fmtDate` models
`toLocaleDateString('en-IN', {day, month, year, timeZone})`. -/
def formatAlertMessage (fmtDate fmtShortDate : Int → String) (renderTime : Int)
    (storeName : String) (expired : List ExpiredEntry)
    (nearExpiry : List NearExpiryEntry) (lowStock : List LowStockEntry) : String :=
  let date := fmtDate renderTime
  let message := headerMark ++ " *Daily Inventory Alert*\n" ++ storeName ++
    " - " ++ date ++ "\n\n"
  let message := expiredSection expired message
  let message := nearExpirySection fmtShortDate nearExpiry message
  let message := lowStockSection lowStock message
  message ++ pointMark ++ " [Open Dashboard](https://vyaparcopilot.web.app)"

/-- One subscriber document under `telegram/subscribers/users`. -/
structure Subscriber where
  id : String
  telegramUserId : Int
  chatId : Int
  lastAlertSent : Option Int
deriving DecidableEq, Repr

/-- The result record returned by the gateway `sendMessage` call, as
inspected by the caller (`result.success`, `result.blocked`). -/
structure SendResult where
  success : Bool
  blocked : Bool
deriving DecidableEq, Repr

/-- Handling of one subscriber in the dispatch loop: a thrown send
(`Except.error`) is caught and the loop continues; on `success` the
record's `lastAlertSent` is set to the current server time and the
sent counter increments; otherwise on `blocked` the record is deleted
(`none`); otherwise the record is left as it was.  Returns the record
state after the iteration and whether the counter was incremented. -/
def dispatchToSubscriber (now : Int) (att : Except Unit SendResult)
    (s : Subscriber) : Option Subscriber × Bool :=
  match att with
  | .error _ => (some s, false)
  | .ok result =>
      if result.success then (some { s with lastAlertSent := some now }, true)
      else if result.blocked then (none, false)
      else (some s, false)

/-- The per-subscriber dispatch loop over the enumerated subscribers:
every subscriber is attempted, and the per-run `alertsSent` counter is
the number of successful sends. -/
def dispatchAll (now : Int) (gw : Subscriber → Except Unit SendResult) :
    List Subscriber → List (Option Subscriber) × Nat
  | [] => ([], 0)
  | s :: rest =>
      let r := dispatchToSubscriber now (gw s) s
      let rest' := dispatchAll now gw rest
      (r.1 :: rest'.1, (if r.2 then 1 else 0) + rest'.2)

/-- The effective alert settings after merging with defaults. -/
structure AlertSettings where
  lowStockThreshold : Int
  expiryWarningDays : Int
  enableExpiryAlerts : Bool
  enableLowStockAlerts : Bool
deriving DecidableEq, Repr

/-- The stored settings document with each field optionally present
(the spread `{...defaults, ...settingsDoc.data()}` overrides
field-by-field). -/
structure StoredSettings where
  lowStockThreshold : Option Int
  expiryWarningDays : Option Int
  enableExpiryAlerts : Option Bool
  enableLowStockAlerts : Option Bool
deriving DecidableEq, Repr

/-- The fixed defaults in `getStoreSettings`. -/
def settingsDefaults : AlertSettings :=
  { lowStockThreshold := 5
    expiryWarningDays := 7
    enableExpiryAlerts := true
    enableLowStockAlerts := true }

/-- `getStoreSettings(storeRef)`: `none` models a missing settings
document or a failed read, both of which yield pure defaults. -/
def getStoreSettings : Option StoredSettings → AlertSettings
  | none => settingsDefaults
  | some d =>
      { lowStockThreshold := d.lowStockThreshold.getD settingsDefaults.lowStockThreshold
        expiryWarningDays := d.expiryWarningDays.getD settingsDefaults.expiryWarningDays
        enableExpiryAlerts := d.enableExpiryAlerts.getD settingsDefaults.enableExpiryAlerts
        enableLowStockAlerts := d.enableLowStockAlerts.getD settingsDefaults.enableLowStockAlerts }

/-- The data of one store read during a run. -/
structure StoreData where
  name : Option String
  subscribers : List Subscriber
  storedSettings : Option StoredSettings
  inventory : List InventoryItem

/-- Observable outcome of processing one store: alerts sent, the
composed digest (if any), the chat ids to which a send was attempted,
and each subscriber record's state after the run (`none` = deleted). -/
structure StoreResult where
  alertsSent : Nat
  message : Option String
  attempted : List Int
  finalSubscribers : List (Option Subscriber)
deriving DecidableEq, Repr

/-- `processStoreAlerts(storeDoc)`: skip when there are no subscribers
or no inventory, resolve settings, classify, skip when nothing to
send, otherwise compose once and dispatch to every subscriber. -/
def processStoreAlerts (today now renderTime : Int)
    (fmtDate fmtShortDate : Int → String)
    (gw : Subscriber → Except Unit SendResult) (store : StoreData) : StoreResult :=
  if store.subscribers.isEmpty then ⟨0, none, [], []⟩
  else
    let settings := getStoreSettings store.storedSettings
    if store.inventory.isEmpty then ⟨0, none, [], store.subscribers.map some⟩
    else
      let r := analyzeInventory today store.inventory
        settings.expiryWarningDays settings.lowStockThreshold
      if r.expired.length = 0 ∧ r.nearExpiry.length = 0 ∧ r.lowStock.length = 0 then
        ⟨0, none, [], store.subscribers.map some⟩
      else
        let message := formatAlertMessage fmtDate fmtShortDate renderTime
          (store.name.getD "Your Store") r.expired r.nearExpiry r.lowStock
        let d := dispatchAll now gw store.subscribers
        ⟨d.2, some message, store.subscribers.map (fun s => s.chatId), d.1⟩

/-- Aggregate statistics of one run. -/
structure RunStats where
  successCount : Nat
  failureCount : Nat
  totalAlertsSent : Nat
deriving DecidableEq, Repr

/-- One iteration of the store loop: `processStoreAlerts` either
returns an alert count or throws (`Except.error`); a throw is caught at
the store boundary and counted as a failure, a positive count marks the
store successful and adds to the total. -/
def storeStep {σ : Type} {ε : Type} (f : σ → Except ε Nat)
    (acc : RunStats) (st : σ) : RunStats :=
  match f st with
  | .ok alerts =>
      if 0 < alerts then
        ⟨acc.successCount + 1, acc.failureCount, acc.totalAlertsSent + alerts⟩
      else acc
  | .error _ => ⟨acc.successCount, acc.failureCount + 1, acc.totalAlertsSent⟩

/-- `dailyTelegramAlerts`: sequential loop over all stores with
per-store failure isolation, aggregating run statistics. -/
def dailyTelegramAlerts {σ : Type} {ε : Type} (f : σ → Except ε Nat)
    (stores : List σ) : RunStats :=
  stores.foldl (storeStep f) ⟨0, 0, 0⟩

/-- Whether a store's processing threw. -/
def storeFailed {σ : Type} {ε : Type} (f : σ → Except ε Nat) (st : σ) : Bool :=
  match f st with
  | .error _ => true
  | .ok _ => false

/-- Whether a store's processing returned a positive alert count. -/
def storeSucceeded {σ : Type} {ε : Type} (f : σ → Except ε Nat) (st : σ) : Bool :=
  match f st with
  | .ok n => decide (0 < n)
  | .error _ => false

/-- The alert count a store contributed to the run total. -/
def storeAlertCount {σ : Type} {ε : Type} (f : σ → Except ε Nat) (st : σ) : Nat :=
  match f st with
  | .ok n => n
  | .error _ => 0

/-- The block of newline-terminated lines a section renders for a list
of entries, one line per entry. -/
def linesBlock {α : Type} (f : α → String) : List α → String
  | [] => ""
  | a :: as => f a ++ "\n" ++ linesBlock f as

/-! Concrete fixtures used by the witness theorems. -/

/-- A concrete subscriber. -/
def witSub : Subscriber := ⟨"u1", 7001, 11, none⟩

/-- A well-stocked item without expiry date: classifies nowhere. -/
def witRice : InventoryItem := ⟨some "Rice", some 100, none⟩

/-- An item with an unparseable expiry date. -/
def witBad : InventoryItem := ⟨some "Bad", some 1, some ExpiryVal.invalid⟩

/-- An item expiring one day after the reference day. -/
def witMilk : InventoryItem := ⟨some "Milk", some 2, some (ExpiryVal.valid oneDayMs)⟩

/-- A store whose single inventory item triggers no category. -/
def witStore : StoreData :=
  { name := some "S", subscribers := [witSub], storedSettings := none
    inventory := [witRice] }

/-- A stored settings document with both alert flags enabled. -/
def witSettingsOn : StoredSettings := ⟨some 3, some 2, some true, some true⟩

/-- The same stored settings document with both alert flags disabled. -/
def witSettingsOff : StoredSettings := ⟨some 3, some 2, some false, some false⟩

/-- Twelve expired entries, to exercise truncation. -/
def witExpiredList : List ExpiredEntry :=
  (List.range 12).map (fun k => ⟨"E" ++ toString k, Int.ofNat k, 0⟩)

/-- Twelve near-expiry entries, to exercise truncation. -/
def witNearList : List NearExpiryEntry :=
  (List.range 12).map (fun k => ⟨"N" ++ toString k, Int.ofNat k + 1, 0⟩)

/-- Twelve low-stock entries, to exercise truncation. -/
def witLowList : List LowStockEntry :=
  (List.range 12).map (fun k => ⟨"L" ++ toString k, Int.ofNat k⟩)

/-! ### Helper lemmas about the classifier loop -/

theorem classifyItem_expired (today w t : Int) (acc : ClassificationResult)
    (i : InventoryItem) :
    (classifyItem today w t acc i).expired =
      acc.expired ++ (if isExpiredItem today i then [expiredEntryOf today i] else []) := by
  unfold classifyItem isExpiredItem expiredEntryOf
  cases h : i.expiryDate with
  | none => by_cases hq : itemQty i ≤ t <;> simp [hq]
  | some v =>
    cases v with
    | invalid => by_cases hq : itemQty i ≤ t <;> simp [hq]
    | valid ms =>
      by_cases h1 : itemDays today ms ≤ 0 <;>
        by_cases h2 : itemDays today ms ≤ w <;>
          by_cases hq : itemQty i ≤ t <;>
            simp [h1, h2, hq]

theorem classifyItem_nearExpiry (today w t : Int) (acc : ClassificationResult)
    (i : InventoryItem) :
    (classifyItem today w t acc i).nearExpiry =
      acc.nearExpiry ++
        (if isNearExpiryItem today w i then [nearExpiryEntryOf today i] else []) := by
  unfold classifyItem isNearExpiryItem nearExpiryEntryOf
  cases h : i.expiryDate with
  | none => by_cases hq : itemQty i ≤ t <;> simp [hq]
  | some v =>
    cases v with
    | invalid => by_cases hq : itemQty i ≤ t <;> simp [hq]
    | valid ms =>
      by_cases h1 : itemDays today ms ≤ 0
      · have hn : ¬(0 < itemDays today ms) := by omega
        by_cases hq : itemQty i ≤ t <;> simp [h1, hn, hq]
      · have hp : 0 < itemDays today ms := by omega
        by_cases h2 : itemDays today ms ≤ w <;>
          by_cases hq : itemQty i ≤ t <;> simp [h1, h2, hp, hq]

theorem classifyItem_lowStock (today w t : Int) (acc : ClassificationResult)
    (i : InventoryItem) :
    (classifyItem today w t acc i).lowStock =
      acc.lowStock ++ (if itemQty i ≤ t then [lowStockEntryOf i] else []) := by
  unfold classifyItem lowStockEntryOf
  cases h : i.expiryDate with
  | none => by_cases hq : itemQty i ≤ t <;> simp [hq]
  | some v =>
    cases v with
    | invalid => by_cases hq : itemQty i ≤ t <;> simp [hq]
    | valid ms =>
      by_cases h1 : itemDays today ms ≤ 0 <;>
        by_cases h2 : itemDays today ms ≤ w <;>
          by_cases hq : itemQty i ≤ t <;>
            simp [h1, h2, hq]

theorem foldl_classifyItem (today w t : Int) :
    ∀ (inv : List InventoryItem) (acc : ClassificationResult),
    inv.foldl (classifyItem today w t) acc =
      ⟨acc.expired ++ (inv.filter (isExpiredItem today)).map (expiredEntryOf today),
       acc.nearExpiry ++
         (inv.filter (isNearExpiryItem today w)).map (nearExpiryEntryOf today),
       acc.lowStock ++
         (inv.filter (fun i => decide (itemQty i ≤ t))).map lowStockEntryOf⟩
  | [], acc => by simp
  | i :: inv, acc => by
    rw [List.foldl_cons, foldl_classifyItem today w t inv]
    simp only [ClassificationResult.mk.injEq]
    refine ⟨?_, ?_, ?_⟩
    · rw [classifyItem_expired, List.filter_cons]
      by_cases hx : isExpiredItem today i <;> simp [hx]
    · rw [classifyItem_nearExpiry, List.filter_cons]
      by_cases hx : isNearExpiryItem today w i <;> simp [hx]
    · rw [classifyItem_lowStock, List.filter_cons]
      by_cases hx : itemQty i ≤ t <;> simp [hx]

theorem analyzeInventory_expired_eq (today : Int) (inv : List InventoryItem)
    (w t : Int) :
    (analyzeInventory today inv w t).expired =
      ((inv.filter (isExpiredItem today)).map (expiredEntryOf today)).mergeSort
        (fun a b => decide (b.daysExpired ≤ a.daysExpired)) := by
  unfold analyzeInventory
  rw [foldl_classifyItem]
  simp

theorem analyzeInventory_nearExpiry_eq (today : Int) (inv : List InventoryItem)
    (w t : Int) :
    (analyzeInventory today inv w t).nearExpiry =
      ((inv.filter (isNearExpiryItem today w)).map (nearExpiryEntryOf today)).mergeSort
        (fun a b => decide (a.daysUntilExpiry ≤ b.daysUntilExpiry)) := by
  unfold analyzeInventory
  rw [foldl_classifyItem]
  simp

theorem analyzeInventory_lowStock_eq (today : Int) (inv : List InventoryItem)
    (w t : Int) :
    (analyzeInventory today inv w t).lowStock =
      ((inv.filter (fun i => decide (itemQty i ≤ t))).map lowStockEntryOf).mergeSort
        (fun a b => decide (a.quantity ≤ b.quantity)) := by
  unfold analyzeInventory
  rw [foldl_classifyItem]
  simp

theorem analyzeInventory_expired_perm (today : Int) (inv : List InventoryItem)
    (w t : Int) :
    (analyzeInventory today inv w t).expired.Perm
      ((inv.filter (isExpiredItem today)).map (expiredEntryOf today)) := by
  rw [analyzeInventory_expired_eq]
  exact List.mergeSort_perm _ _

theorem analyzeInventory_nearExpiry_perm (today : Int) (inv : List InventoryItem)
    (w t : Int) :
    (analyzeInventory today inv w t).nearExpiry.Perm
      ((inv.filter (isNearExpiryItem today w)).map (nearExpiryEntryOf today)) := by
  rw [analyzeInventory_nearExpiry_eq]
  exact List.mergeSort_perm _ _

theorem analyzeInventory_lowStock_perm (today : Int) (inv : List InventoryItem)
    (w t : Int) :
    (analyzeInventory today inv w t).lowStock.Perm
      ((inv.filter (fun i => decide (itemQty i ≤ t))).map lowStockEntryOf) := by
  rw [analyzeInventory_lowStock_eq]
  exact List.mergeSort_perm _ _

/-! ### Sortedness and stability of the three sorts -/

theorem analyzeInventory_expired_pairwise (today : Int) (inv : List InventoryItem)
    (w t : Int) :
    (analyzeInventory today inv w t).expired.Pairwise
      (fun a b => b.daysExpired ≤ a.daysExpired) := by
  rw [analyzeInventory_expired_eq]
  have h := @List.sorted_mergeSort ExpiredEntry
    (fun a b => decide (b.daysExpired ≤ a.daysExpired))
    (fun a b c h1 h2 => by
      simp only [decide_eq_true_eq] at h1 h2 ⊢
      omega)
    (fun a b => by
      simp only [Bool.or_eq_true, decide_eq_true_eq]
      omega)
    ((inv.filter (isExpiredItem today)).map (expiredEntryOf today))
  exact h.imp (fun hab => by simpa using hab)

theorem analyzeInventory_nearExpiry_pairwise (today : Int) (inv : List InventoryItem)
    (w t : Int) :
    (analyzeInventory today inv w t).nearExpiry.Pairwise
      (fun a b => a.daysUntilExpiry ≤ b.daysUntilExpiry) := by
  rw [analyzeInventory_nearExpiry_eq]
  have h := @List.sorted_mergeSort NearExpiryEntry
    (fun a b => decide (a.daysUntilExpiry ≤ b.daysUntilExpiry))
    (fun a b c h1 h2 => by
      simp only [decide_eq_true_eq] at h1 h2 ⊢
      omega)
    (fun a b => by
      simp only [Bool.or_eq_true, decide_eq_true_eq]
      omega)
    ((inv.filter (isNearExpiryItem today w)).map (nearExpiryEntryOf today))
  exact h.imp (fun hab => by simpa using hab)

theorem analyzeInventory_lowStock_pairwise (today : Int) (inv : List InventoryItem)
    (w t : Int) :
    (analyzeInventory today inv w t).lowStock.Pairwise
      (fun a b => a.quantity ≤ b.quantity) := by
  rw [analyzeInventory_lowStock_eq]
  have h := @List.sorted_mergeSort LowStockEntry
    (fun a b => decide (a.quantity ≤ b.quantity))
    (fun a b c h1 h2 => by
      simp only [decide_eq_true_eq] at h1 h2 ⊢
      omega)
    (fun a b => by
      simp only [Bool.or_eq_true, decide_eq_true_eq]
      omega)
    ((inv.filter (fun i => decide (itemQty i ≤ t))).map lowStockEntryOf)
  exact h.imp (fun hab => by simpa using hab)

theorem filter_mergeSort_eq {α : Type} (le : α → α → Bool)
    (trans : ∀ a b c, le a b → le b c → le a c)
    (total : ∀ a b, le a b || le b a)
    (p : α → Bool) (hp : ∀ a b, p a = true → p b = true → le a b = true)
    (l : List α) : (l.mergeSort le).filter p = l.filter p := by
  have hsub : List.Sublist (l.filter p) l := List.filter_sublist l
  have hpw : (l.filter p).Pairwise (fun a b => le a b = true) := by
    apply List.pairwise_of_forall_mem_list
    intro a ha b hb
    exact hp a b (List.of_mem_filter ha) (List.of_mem_filter hb)
  have h2 : List.Sublist (l.filter p) (l.mergeSort le) :=
    List.sublist_mergeSort trans total hpw hsub
  have h4 : List.Sublist (l.filter p) ((l.mergeSort le).filter p) := by
    simpa using h2.filter p
  have hperm : List.Perm ((l.mergeSort le).filter p) (l.filter p) :=
    (List.mergeSort_perm l le).filter p
  exact (h4.eq_of_length hperm.length_eq.symm).symm

theorem analyzeInventory_expired_stable (today : Int) (inv : List InventoryItem)
    (w t : Int) (k : Int) :
    (analyzeInventory today inv w t).expired.filter (fun e => decide (e.daysExpired = k)) =
      ((inv.filter (isExpiredItem today)).map (expiredEntryOf today)).filter
        (fun e => decide (e.daysExpired = k)) := by
  rw [analyzeInventory_expired_eq]
  apply filter_mergeSort_eq
  · intro a b c h1 h2
    simp only [decide_eq_true_eq] at *
    omega
  · intro a b
    simp only [Bool.or_eq_true, decide_eq_true_eq]
    omega
  · intro a b ha hb
    simp only [decide_eq_true_eq] at *
    omega

theorem analyzeInventory_nearExpiry_stable (today : Int) (inv : List InventoryItem)
    (w t : Int) (k : Int) :
    (analyzeInventory today inv w t).nearExpiry.filter
        (fun e => decide (e.daysUntilExpiry = k)) =
      ((inv.filter (isNearExpiryItem today w)).map (nearExpiryEntryOf today)).filter
        (fun e => decide (e.daysUntilExpiry = k)) := by
  rw [analyzeInventory_nearExpiry_eq]
  apply filter_mergeSort_eq
  · intro a b c h1 h2
    simp only [decide_eq_true_eq] at *
    omega
  · intro a b
    simp only [Bool.or_eq_true, decide_eq_true_eq]
    omega
  · intro a b ha hb
    simp only [decide_eq_true_eq] at *
    omega

theorem analyzeInventory_lowStock_stable (today : Int) (inv : List InventoryItem)
    (w t : Int) (k : Int) :
    (analyzeInventory today inv w t).lowStock.filter (fun e => decide (e.quantity = k)) =
      ((inv.filter (fun i => decide (itemQty i ≤ t))).map lowStockEntryOf).filter
        (fun e => decide (e.quantity = k)) := by
  rw [analyzeInventory_lowStock_eq]
  apply filter_mergeSort_eq
  · intro a b c h1 h2
    simp only [decide_eq_true_eq] at *
    omega
  · intro a b
    simp only [Bool.or_eq_true, decide_eq_true_eq]
    omega
  · intro a b ha hb
    simp only [decide_eq_true_eq] at *
    omega

/-! ### Helper lemmas about the dispatcher, the orchestrator and the
section renderer -/

theorem dispatchAll_fst (now : Int) (gw : Subscriber → Except Unit SendResult) :
    ∀ subs : List Subscriber,
    (dispatchAll now gw subs).1 = subs.map (fun s => (dispatchToSubscriber now (gw s) s).1)
  | [] => rfl
  | s :: rest => by
    simp [dispatchAll, dispatchAll_fst now gw rest]

theorem dispatchAll_snd (now : Int) (gw : Subscriber → Except Unit SendResult) :
    ∀ subs : List Subscriber,
    (dispatchAll now gw subs).2 = subs.countP (fun s => (dispatchToSubscriber now (gw s) s).2)
  | [] => rfl
  | s :: rest => by
    simp only [dispatchAll, List.countP_cons, dispatchAll_snd now gw rest]
    cases h : (dispatchToSubscriber now (gw s) s).2 <;> simp [h] <;> omega

theorem foldl_storeStep {σ : Type} {ε : Type} (f : σ → Except ε Nat) :
    ∀ (stores : List σ) (acc : RunStats),
    stores.foldl (storeStep f) acc =
      ⟨acc.successCount + stores.countP (storeSucceeded f),
       acc.failureCount + stores.countP (storeFailed f),
       acc.totalAlertsSent + (stores.map (storeAlertCount f)).sum⟩
  | [], acc => by simp
  | st :: stores, acc => by
    rw [List.foldl_cons, foldl_storeStep f stores]
    simp only [List.countP_cons, List.map_cons, List.sum_cons]
    unfold storeStep storeSucceeded storeFailed storeAlertCount
    cases h : f st with
    | ok n =>
      by_cases hn : 0 < n <;>
        simp [h, hn, RunStats.mk.injEq] <;> omega
    | error e =>
      simp [h, RunStats.mk.injEq]
      omega

theorem foldl_linesBlock {α : Type} (f : α → String) :
    ∀ (l : List α) (m : String),
    l.foldl (fun acc a => acc ++ f a ++ "\n") m = m ++ linesBlock f l
  | [], m => by simp [linesBlock]
  | a :: l, m => by
    rw [List.foldl_cons, foldl_linesBlock f l]
    simp [linesBlock, String.append_assoc]

/-! ### Claim theorems -/

/-- C2: for every inventory snapshot and threshold, `lowStock` holds,
up to the sort's reordering, exactly one entry per item whose quantity
(defaulting to 0) is at most the threshold, paired with that quantity —
the filter never consults the expiry field — and no entry of `lowStock`
exceeds the threshold. -/
theorem lowStock_exactly_qualifying (today : Int) (inv : List InventoryItem)
    (w t : Int) :
    (analyzeInventory today inv w t).lowStock.Perm
      ((inv.filter (fun i => decide (itemQty i ≤ t))).map lowStockEntryOf) ∧
    ∀ e ∈ (analyzeInventory today inv w t).lowStock, e.quantity ≤ t := by
  refine ⟨analyzeInventory_lowStock_perm today inv w t, ?_⟩
  intro e he
  have hmem := (analyzeInventory_lowStock_perm today inv w t).mem_iff.mp he
  obtain ⟨i, hi, rfl⟩ := List.mem_map.mp hmem
  have hq := List.of_mem_filter hi
  simp only [decide_eq_true_eq] at hq
  simpa [lowStockEntryOf] using hq

/-- Witness for C2 at a concrete two-item snapshot. -/
theorem lowStock_exactly_qualifying_witness :
    (analyzeInventory 0 [witMilk, witRice] 7 5).lowStock.Perm
      (([witMilk, witRice].filter (fun i => decide (itemQty i ≤ 5))).map lowStockEntryOf) ∧
    ∀ e ∈ (analyzeInventory 0 [witMilk, witRice] 7 5).lowStock, e.quantity ≤ 5 :=
  lowStock_exactly_qualifying 0 [witMilk, witRice] 7 5

/-- C3: the `expired` and `nearExpiry` outputs are, up to the sorts'
reordering, exactly the items passing `isExpiredItem` and
`isNearExpiryItem`; for an item with a parseable expiry date those
predicates are determined solely by
`daysUntilExpiry = ceil((expiryDate - today) / oneDayMs)` —
expired iff it is ≤ 0 (with `daysExpired` its absolute value),
near-expiry iff it is in `(0, expiryWarningDays]` — and the two are
mutually exclusive, so the item lands in at most one of the two. -/
theorem expiry_category_characterization (today : Int) (inv : List InventoryItem)
    (w t : Int) :
    (analyzeInventory today inv w t).expired.Perm
      ((inv.filter (isExpiredItem today)).map (expiredEntryOf today)) ∧
    (analyzeInventory today inv w t).nearExpiry.Perm
      ((inv.filter (isNearExpiryItem today w)).map (nearExpiryEntryOf today)) ∧
    ∀ (i : InventoryItem) (ms : Int), i.expiryDate = some (ExpiryVal.valid ms) →
      (isExpiredItem today i = true ↔ itemDays today ms ≤ 0) ∧
      (isNearExpiryItem today w i = true ↔
        0 < itemDays today ms ∧ itemDays today ms ≤ w) ∧
      ¬(isExpiredItem today i = true ∧ isNearExpiryItem today w i = true) ∧
      expiredEntryOf today i = ⟨itemName i, |itemDays today ms|, ms⟩ ∧
      nearExpiryEntryOf today i = ⟨itemName i, itemDays today ms, ms⟩ := by
  refine ⟨analyzeInventory_expired_perm today inv w t,
    analyzeInventory_nearExpiry_perm today inv w t, ?_⟩
  intro i ms h
  simp only [isExpiredItem, isNearExpiryItem, expiredEntryOf, nearExpiryEntryOf, h]
  refine ⟨by simp, by simp, ?_, by simp, by simp⟩
  simp only [Bool.and_eq_true, decide_eq_true_eq]
  omega

/-- Witness for C3 at a concrete snapshot, instantiating the inner
characterization at the item expiring tomorrow. -/
theorem expiry_category_characterization_witness :
    (analyzeInventory 0 [witMilk] 7 5).expired.Perm
      (([witMilk].filter (isExpiredItem 0)).map (expiredEntryOf 0)) ∧
    (analyzeInventory 0 [witMilk] 7 5).nearExpiry.Perm
      (([witMilk].filter (isNearExpiryItem 0 7)).map (nearExpiryEntryOf 0)) ∧
    (isNearExpiryItem 0 7 witMilk = true ↔
      0 < itemDays 0 oneDayMs ∧ itemDays 0 oneDayMs ≤ 7) :=
  ⟨(expiry_category_characterization 0 [witMilk] 7 5).1,
   (expiry_category_characterization 0 [witMilk] 7 5).2.1,
   ((expiry_category_characterization 0 [witMilk] 7 5).2.2 witMilk oneDayMs rfl).2.1⟩

/-- C7: the classifier's outputs are sorted — `expired` descending by
`daysExpired`, `nearExpiry` ascending by `daysUntilExpiry`, `lowStock`
ascending by `quantity` — and the sorts are stable: for each key value,
the entries carrying that key appear in exactly the order the
qualifying items occur in the input snapshot. -/
theorem classifier_sorted_and_stable (today : Int) (inv : List InventoryItem)
    (w t : Int) :
    (analyzeInventory today inv w t).expired.Pairwise
      (fun a b => b.daysExpired ≤ a.daysExpired) ∧
    (analyzeInventory today inv w t).nearExpiry.Pairwise
      (fun a b => a.daysUntilExpiry ≤ b.daysUntilExpiry) ∧
    (analyzeInventory today inv w t).lowStock.Pairwise
      (fun a b => a.quantity ≤ b.quantity) ∧
    (∀ k : Int,
      (analyzeInventory today inv w t).expired.filter
          (fun e => decide (e.daysExpired = k)) =
        ((inv.filter (isExpiredItem today)).map (expiredEntryOf today)).filter
          (fun e => decide (e.daysExpired = k))) ∧
    (∀ k : Int,
      (analyzeInventory today inv w t).nearExpiry.filter
          (fun e => decide (e.daysUntilExpiry = k)) =
        ((inv.filter (isNearExpiryItem today w)).map (nearExpiryEntryOf today)).filter
          (fun e => decide (e.daysUntilExpiry = k))) ∧
    (∀ k : Int,
      (analyzeInventory today inv w t).lowStock.filter
          (fun e => decide (e.quantity = k)) =
        ((inv.filter (fun i => decide (itemQty i ≤ t))).map lowStockEntryOf).filter
          (fun e => decide (e.quantity = k))) :=
  ⟨analyzeInventory_expired_pairwise today inv w t,
   analyzeInventory_nearExpiry_pairwise today inv w t,
   analyzeInventory_lowStock_pairwise today inv w t,
   fun k => analyzeInventory_expired_stable today inv w t k,
   fun k => analyzeInventory_nearExpiry_stable today inv w t k,
   fun k => analyzeInventory_lowStock_stable today inv w t k⟩

/-- C10: an item whose expiry date does not parse contributes nothing
to `expired` or `nearExpiry`, while its low-stock classification from
`quantity` still applies, and the rest of the snapshot classifies as if
the item's expiry were absent — the classifier is a total function, so
a malformed item never fails the batch. -/
theorem malformed_expiry_nonfatal (today w t : Int)
    (inv1 inv2 : List InventoryItem) (i : InventoryItem)
    (h : i.expiryDate = some ExpiryVal.invalid) :
    (analyzeInventory today (inv1 ++ i :: inv2) w t).expired.Perm
      ((analyzeInventory today (inv1 ++ inv2) w t).expired) ∧
    (analyzeInventory today (inv1 ++ i :: inv2) w t).nearExpiry.Perm
      ((analyzeInventory today (inv1 ++ inv2) w t).nearExpiry) ∧
    (analyzeInventory today (inv1 ++ i :: inv2) w t).lowStock.Perm
      ((analyzeInventory today (inv1 ++ inv2) w t).lowStock ++
        (if itemQty i ≤ t then [lowStockEntryOf i] else [])) := by
  have hx : isExpiredItem today i = false := by simp [isExpiredItem, h]
  have hnx : isNearExpiryItem today w i = false := by simp [isNearExpiryItem, h]
  refine ⟨?_, ?_, ?_⟩
  · refine (analyzeInventory_expired_perm today (inv1 ++ i :: inv2) w t).trans ?_
    refine (List.Perm.of_eq ?_).trans
      (analyzeInventory_expired_perm today (inv1 ++ inv2) w t).symm
    simp [List.filter_append, List.filter_cons, hx]
  · refine (analyzeInventory_nearExpiry_perm today (inv1 ++ i :: inv2) w t).trans ?_
    refine (List.Perm.of_eq ?_).trans
      (analyzeInventory_nearExpiry_perm today (inv1 ++ inv2) w t).symm
    simp [List.filter_append, List.filter_cons, hnx]
  · by_cases hq : itemQty i ≤ t
    · refine (analyzeInventory_lowStock_perm today (inv1 ++ i :: inv2) w t).trans ?_
      have hfe : ((inv1 ++ i :: inv2).filter (fun x => decide (itemQty x ≤ t))).map
            lowStockEntryOf =
          (inv1.filter (fun x => decide (itemQty x ≤ t))).map lowStockEntryOf ++
            lowStockEntryOf i ::
              (inv2.filter (fun x => decide (itemQty x ≤ t))).map lowStockEntryOf := by
        simp [List.filter_append, List.filter_cons, hq]
      rw [hfe]
      refine List.perm_middle.trans ?_
      simp only [hq, if_true]
      refine (List.perm_append_singleton _ _).symm.trans ?_
      refine List.Perm.append_right _ ?_
      refine (List.Perm.of_eq ?_).trans
        (analyzeInventory_lowStock_perm today (inv1 ++ inv2) w t).symm
      simp [List.filter_append]
    · refine (analyzeInventory_lowStock_perm today (inv1 ++ i :: inv2) w t).trans ?_
      simp only [hq, if_false, List.append_nil]
      refine (List.Perm.of_eq ?_).trans
        (analyzeInventory_lowStock_perm today (inv1 ++ inv2) w t).symm
      simp [List.filter_append, List.filter_cons, hq]

/-- Witness for C10: an unparseable item next to a parseable one. -/
theorem malformed_expiry_nonfatal_witness :
    (analyzeInventory 0 ([] ++ witBad :: [witMilk]) 7 5).expired.Perm
      ((analyzeInventory 0 ([] ++ [witMilk]) 7 5).expired) ∧
    (analyzeInventory 0 ([] ++ witBad :: [witMilk]) 7 5).nearExpiry.Perm
      ((analyzeInventory 0 ([] ++ [witMilk]) 7 5).nearExpiry) ∧
    (analyzeInventory 0 ([] ++ witBad :: [witMilk]) 7 5).lowStock.Perm
      ((analyzeInventory 0 ([] ++ [witMilk]) 7 5).lowStock ++
        (if itemQty witBad ≤ 5 then [lowStockEntryOf witBad] else [])) :=
  malformed_expiry_nonfatal 0 7 5 [] [witMilk] witBad rfl

/-- C6: each category section shows at most 10 entry lines; with more
than 10 entries it renders the 10 first entries of the (sorted) list
followed by exactly one truncation line carrying the remaining count
`length - 10`; with 10 or fewer it renders every entry and no
truncation line. -/
theorem digest_sections_truncate_at_ten (fmtShortDate : Int → String)
    (e : List ExpiredEntry) (n : List NearExpiryEntry) (l : List LowStockEntry)
    (msg : String) :
    ((e.take 10).length ≤ 10 ∧ (n.take 10).length ≤ 10 ∧ (l.take 10).length ≤ 10) ∧
    (10 < e.length →
      (e.take 10).length = 10 ∧
      expiredSection e msg =
        msg ++ expiredHdrMark ++ " *Expired Items (" ++ toString e.length ++ "):*\n" ++
          linesBlock expiredLineText (e.take 10) ++
          "_...and " ++ toString (e.length - 10) ++ " more items_\n" ++ "\n") ∧
    (0 < e.length → e.length ≤ 10 →
      expiredSection e msg =
        msg ++ expiredHdrMark ++ " *Expired Items (" ++ toString e.length ++ "):*\n" ++
          linesBlock expiredLineText e ++ "\n") ∧
    (10 < n.length →
      (n.take 10).length = 10 ∧
      nearExpirySection fmtShortDate n msg =
        msg ++ calendarMark ++ " *Expiring Soon (" ++ toString n.length ++ "):*\n" ++
          linesBlock (nearExpiryLineText fmtShortDate) (n.take 10) ++
          "_...and " ++ toString (n.length - 10) ++ " more items_\n" ++ "\n") ∧
    (0 < n.length → n.length ≤ 10 →
      nearExpirySection fmtShortDate n msg =
        msg ++ calendarMark ++ " *Expiring Soon (" ++ toString n.length ++ "):*\n" ++
          linesBlock (nearExpiryLineText fmtShortDate) n ++ "\n") ∧
    (10 < l.length →
      (l.take 10).length = 10 ∧
      lowStockSection l msg =
        msg ++ packageMark ++ " *Low Stock (" ++ toString l.length ++ "):*\n" ++
          linesBlock lowStockLineText (l.take 10) ++
          "_...and " ++ toString (l.length - 10) ++ " more items_\n" ++ "\n") ∧
    (0 < l.length → l.length ≤ 10 →
      lowStockSection l msg =
        msg ++ packageMark ++ " *Low Stock (" ++ toString l.length ++ "):*\n" ++
          linesBlock lowStockLineText l ++ "\n") := by
  refine ⟨⟨by simp [List.length_take], by simp [List.length_take],
    by simp [List.length_take]⟩, ?_, ?_, ?_, ?_, ?_, ?_⟩
  · intro h
    refine ⟨by simp only [List.length_take]; omega, ?_⟩
    unfold expiredSection
    rw [if_pos (by omega : 0 < e.length)]
    dsimp only
    rw [foldl_linesBlock expiredLineText (e.take 10)]
    rw [if_pos h]
  · intro h0 h10
    unfold expiredSection
    rw [if_pos h0]
    dsimp only
    rw [foldl_linesBlock expiredLineText (e.take 10)]
    rw [if_neg (by omega), List.take_of_length_le h10]
  · intro h
    refine ⟨by simp only [List.length_take]; omega, ?_⟩
    unfold nearExpirySection
    rw [if_pos (by omega : 0 < n.length)]
    dsimp only
    rw [foldl_linesBlock (nearExpiryLineText fmtShortDate) (n.take 10)]
    rw [if_pos h]
  · intro h0 h10
    unfold nearExpirySection
    rw [if_pos h0]
    dsimp only
    rw [foldl_linesBlock (nearExpiryLineText fmtShortDate) (n.take 10)]
    rw [if_neg (by omega), List.take_of_length_le h10]
  · intro h
    refine ⟨by simp only [List.length_take]; omega, ?_⟩
    unfold lowStockSection
    rw [if_pos (by omega : 0 < l.length)]
    dsimp only
    rw [foldl_linesBlock lowStockLineText (l.take 10)]
    rw [if_pos h]
  · intro h0 h10
    unfold lowStockSection
    rw [if_pos h0]
    dsimp only
    rw [foldl_linesBlock lowStockLineText (l.take 10)]
    rw [if_neg (by omega), List.take_of_length_le h10]

/-- Witness for C6 at twelve-entry lists, discharging both the
truncated and the untruncated cases. -/
theorem digest_sections_truncate_at_ten_witness :
    (10 < witExpiredList.length →
      (witExpiredList.take 10).length = 10 ∧
      expiredSection witExpiredList "" =
        "" ++ expiredHdrMark ++ " *Expired Items (" ++
          toString witExpiredList.length ++ "):*\n" ++
          linesBlock expiredLineText (witExpiredList.take 10) ++
          "_...and " ++ toString (witExpiredList.length - 10) ++
          " more items_\n" ++ "\n") ∧
    (10 < witLowList.length →
      (witLowList.take 10).length = 10 ∧
      lowStockSection witLowList "" =
        "" ++ packageMark ++ " *Low Stock (" ++ toString witLowList.length ++ "):*\n" ++
          linesBlock lowStockLineText (witLowList.take 10) ++
          "_...and " ++ toString (witLowList.length - 10) ++
          " more items_\n" ++ "\n") :=
  ⟨fun _ => (digest_sections_truncate_at_ten (fun _ => "d") witExpiredList
      witNearList witLowList "").2.1 (by simp [witExpiredList]),
   fun _ => (digest_sections_truncate_at_ten (fun _ => "d") witExpiredList
      witNearList witLowList "").2.2.2.2.2.1 (by simp [witLowList])⟩

/-- C8: the composer is a pure function of the clock value sampled at
render time, the store name and the three classified lists; the clock
enters the output only through the formatted header date, so any two
renderings whose formatted date agrees produce identical text, and the
inputs are never mutated (the embedding is pure). -/
theorem composer_deterministic (fmtDate fmtShortDate : Int → String)
    (t1 t2 : Int) (storeName : String) (e : List ExpiredEntry)
    (n : List NearExpiryEntry) (l : List LowStockEntry)
    (h : fmtDate t1 = fmtDate t2) :
    formatAlertMessage fmtDate fmtShortDate t1 storeName e n l =
      formatAlertMessage fmtDate fmtShortDate t2 storeName e n l := by
  unfold formatAlertMessage
  rw [h]

/-- Witness for C8 at two distinct render instants with the same
formatted date. -/
theorem composer_deterministic_witness :
    formatAlertMessage (fun _ => "11 Oct 2026") (fun _ => "12 Oct") 0 "S"
        [] [] [⟨"L", 1⟩] =
      formatAlertMessage (fun _ => "11 Oct 2026") (fun _ => "12 Oct") 1 "S"
        [] [] [⟨"L", 1⟩] :=
  composer_deterministic (fun _ => "11 Oct 2026") (fun _ => "12 Oct") 0 1 "S"
    [] [] [⟨"L", 1⟩] rfl

/-- C1: the dispatch loop visits every enumerated subscriber and counts
exactly the successful sends; for one subscriber, the record is updated
to carry `lastAlertSent = now` with the counter incremented iff the
gateway returned success, it is deleted iff the gateway reported the
recipient permanently unreachable (`blocked`, the outcomes being
mutually exclusive), and on a generic failure or a thrown send the
record is left unchanged and not counted. -/
theorem subscriber_mutation_matches_outcome (now : Int)
    (gw : Subscriber → Except Unit SendResult) (subs : List Subscriber)
    (att : Except Unit SendResult) (s : Subscriber) :
    (dispatchAll now gw subs).1 =
      subs.map (fun x => (dispatchToSubscriber now (gw x) x).1) ∧
    (dispatchAll now gw subs).2 =
      subs.countP (fun x => (dispatchToSubscriber now (gw x) x).2) ∧
    (((dispatchToSubscriber now att s).1 = some { s with lastAlertSent := some now } ∧
        (dispatchToSubscriber now att s).2 = true) ↔
      ∃ r, att = Except.ok r ∧ r.success = true) ∧
    ((∀ r, att = Except.ok r → ¬(r.success = true ∧ r.blocked = true)) →
      ((dispatchToSubscriber now att s).1 = none ↔
        ∃ r, att = Except.ok r ∧ r.blocked = true)) ∧
    ((att = Except.error () ∨
        ∃ r, att = Except.ok r ∧ r.success = false ∧ r.blocked = false) →
      dispatchToSubscriber now att s = (some s, false)) := by
  refine ⟨dispatchAll_fst now gw subs, dispatchAll_snd now gw subs, ?_, ?_, ?_⟩
  · cases att with
    | error u => simp [dispatchToSubscriber]
    | ok r =>
      rcases r with ⟨su, bl⟩
      cases su <;> cases bl <;> simp [dispatchToSubscriber]
  · intro hexc
    cases att with
    | error u => simp [dispatchToSubscriber]
    | ok r =>
      rcases r with ⟨su, bl⟩
      cases su <;> cases bl <;> simp [dispatchToSubscriber]
      exact absurd ⟨rfl, rfl⟩ (hexc ⟨true, true⟩ rfl)
  · rintro (rfl | ⟨r, rfl, hs, hb⟩)
    · simp [dispatchToSubscriber]
    · simp [dispatchToSubscriber, hs, hb]

/-- Witness for C1 at concrete outcomes, discharging the
outcome-exclusivity and other-failure hypotheses. -/
theorem subscriber_mutation_matches_outcome_witness :
    ((dispatchToSubscriber 5 (Except.ok ⟨false, true⟩) witSub).1 = none ↔
      ∃ r : SendResult,
        (Except.ok ⟨false, true⟩ : Except Unit SendResult) = Except.ok r ∧
          r.blocked = true) ∧
    dispatchToSubscriber 5 (Except.error ()) witSub = (some witSub, false) :=
  ⟨(subscriber_mutation_matches_outcome 5
      (fun _ => Except.ok ⟨true, false⟩) [witSub] (Except.ok ⟨false, true⟩) witSub).2.2.2.1
      (by rintro r hr; cases hr; simp),
   (subscriber_mutation_matches_outcome 5
      (fun _ => Except.ok ⟨true, false⟩) [witSub] (Except.error ()) witSub).2.2.2.2
      (Or.inl rfl)⟩

/-- C4: the run over any store list terminates with aggregate
statistics in which the failure count is exactly the number of stores
whose processing threw, the success count the number of stores with a
positive alert count, and the total the sum of all alert counts — a
throwing store is absorbed at the store boundary and every other store
still contributes, so one failure never aborts the run. -/
theorem run_isolates_store_failures {σ : Type} {ε : Type}
    (f : σ → Except ε Nat) (stores : List σ) :
    dailyTelegramAlerts f stores =
      ⟨stores.countP (storeSucceeded f), stores.countP (storeFailed f),
        (stores.map (storeAlertCount f)).sum⟩ := by
  unfold dailyTelegramAlerts
  rw [foldl_storeStep]
  simp

/-- C5: when classification yields three empty category lists for a
store, `processStoreAlerts` composes no digest, attempts no delivery
to any subscriber, and reports zero alerts sent. -/
theorem no_categories_no_dispatch (today now renderTime : Int)
    (fmtDate fmtShortDate : Int → String)
    (gw : Subscriber → Except Unit SendResult) (store : StoreData)
    (he : (analyzeInventory today store.inventory
        (getStoreSettings store.storedSettings).expiryWarningDays
        (getStoreSettings store.storedSettings).lowStockThreshold).expired = [])
    (hn : (analyzeInventory today store.inventory
        (getStoreSettings store.storedSettings).expiryWarningDays
        (getStoreSettings store.storedSettings).lowStockThreshold).nearExpiry = [])
    (hl : (analyzeInventory today store.inventory
        (getStoreSettings store.storedSettings).expiryWarningDays
        (getStoreSettings store.storedSettings).lowStockThreshold).lowStock = []) :
    (processStoreAlerts today now renderTime fmtDate fmtShortDate gw store).message =
      none ∧
    (processStoreAlerts today now renderTime fmtDate fmtShortDate gw store).attempted =
      [] ∧
    (processStoreAlerts today now renderTime fmtDate fmtShortDate gw store).alertsSent =
      0 := by
  unfold processStoreAlerts
  by_cases h1 : store.subscribers.isEmpty
  · simp [h1]
  · by_cases h2 : store.inventory.isEmpty
    · simp [h1, h2]
    · simp [h1, h2, he, hn, hl]

/-- Witness for C5: a subscribed store whose single well-stocked,
non-expiring item produces three empty categories. -/
theorem no_categories_no_dispatch_witness :
    (processStoreAlerts 0 0 0 (fun _ => "D") (fun _ => "d")
        (fun _ => Except.ok ⟨true, false⟩) witStore).message = none ∧
    (processStoreAlerts 0 0 0 (fun _ => "D") (fun _ => "d")
        (fun _ => Except.ok ⟨true, false⟩) witStore).attempted = [] ∧
    (processStoreAlerts 0 0 0 (fun _ => "D") (fun _ => "d")
        (fun _ => Except.ok ⟨true, false⟩) witStore).alertsSent = 0 :=
  no_categories_no_dispatch 0 0 0 (fun _ => "D") (fun _ => "d")
    (fun _ => Except.ok ⟨true, false⟩) witStore
    (by simp [witStore, witRice, getStoreSettings, settingsDefaults,
      analyzeInventory, classifyItem, itemQty])
    (by simp [witStore, witRice, getStoreSettings, settingsDefaults,
      analyzeInventory, classifyItem, itemQty])
    (by simp [witStore, witRice, getStoreSettings, settingsDefaults,
      analyzeInventory, classifyItem, itemQty])

/-- C9: the resolved `enableExpiryAlerts` and `enableLowStockAlerts`
flags are never consulted: two stored settings documents equal in their
numeric fields yield identical store processing — same classification,
same digest, same attempted deliveries and same subscriber mutations —
whatever their flag values. -/
theorem alert_flags_have_no_effect (today now renderTime : Int)
    (fmtDate fmtShortDate : Int → String)
    (gw : Subscriber → Except Unit SendResult) (name : Option String)
    (subs : List Subscriber) (inv : List InventoryItem)
    (d1 d2 : StoredSettings)
    (hth : d1.lowStockThreshold = d2.lowStockThreshold)
    (hwd : d1.expiryWarningDays = d2.expiryWarningDays) :
    processStoreAlerts today now renderTime fmtDate fmtShortDate gw
        ⟨name, subs, some d1, inv⟩ =
      processStoreAlerts today now renderTime fmtDate fmtShortDate gw
        ⟨name, subs, some d2, inv⟩ := by
  simp only [processStoreAlerts, getStoreSettings, hth, hwd]

/-- Witness for C9: the same stored document with both flags flipped. -/
theorem alert_flags_have_no_effect_witness :
    processStoreAlerts 0 0 0 (fun _ => "D") (fun _ => "d")
        (fun _ => Except.ok ⟨true, false⟩) ⟨some "S", [witSub], some witSettingsOn, [witMilk]⟩ =
      processStoreAlerts 0 0 0 (fun _ => "D") (fun _ => "d")
        (fun _ => Except.ok ⟨true, false⟩) ⟨some "S", [witSub], some witSettingsOff, [witMilk]⟩ :=
  alert_flags_have_no_effect 0 0 0 (fun _ => "D") (fun _ => "d")
    (fun _ => Except.ok ⟨true, false⟩) (some "S") [witSub] [witMilk]
    witSettingsOn witSettingsOff rfl rfl

end Vyapari
